import Mathlib

/-!
Verification model of the `canvas-calendar-bridge` repository.

The repository bridges the Canvas LMS assignment feed with Google Calendar:

* `src/canvas.ts` — `CanvasClient.getUpcomingAssignments` fetches active
  courses, fetches each course's assignment list (fail-fast on a per-course
  fault), filters to published items with a due date, and transforms each
  survivor into a normalized item with a detected type.
* `src/index.ts` — `convertToEST` converts a UTC instant into an
  America/New_York wall-clock pair (machine `datetime`, human `readable`);
  the `sync_to_calendar` handler runs a per-item loop that applies a
  `daysAhead` window, builds a Google Calendar event payload and records
  synced/skipped outcomes; the `update_calendar_event` handler assembles a
  partial update object from its optional arguments.

Every definition below is a shallow embedding of the corresponding source
code.  JavaScript machine integers are modelled as `Int` (millisecond
epoch arithmetic stays far below 2^53, where `Number` arithmetic is exact,
and `Math.ceil` of the day quotient agrees with the exact rational
ceiling there); fallible code returns `Option`/`Except`; JavaScript's
falsy coalescing (`x || d`) is modelled explicitly on `Option` values.
-/

namespace CanvasBridge

/-! ### JavaScript-style helpers

`Option String` models a JS string field that may be `undefined` (`none`).
The empty string is falsy in JS, so `a || b` and `if (x)` treat `some ""`
like `none`. -/

/-- JS `a || b` on string-valued expressions: `a` unless `a` is falsy
(`undefined` or `""`). -/
def jsOrS : Option String → Option String → Option String
  | some s, b => if s = "" then b else some s
  | none, b => b

/-- JS truthiness of a string value. -/
def truthyS : Option String → Bool
  | some s => decide (s ≠ "")
  | none => false

/-- JS truthiness of a numeric value (`0` is falsy). -/
def truthyN : Option Int → Bool
  | some n => decide (n ≠ 0)
  | none => false

/-- JS template-literal interpolation of a possibly-`undefined` string:
`undefined` prints as `"undefined"`. -/
def interpS (o : Option String) : String := o.getD "undefined"

/-- JS `(x as number) || d`: the argument unless it is absent or `0`. -/
def jsNum : Option Int → Int → Int
  | some n, d => if n = 0 then d else n
  | none, d => d

/-! ### Civil-calendar arithmetic

Days-from-civil / civil-from-days use the standard proleptic-Gregorian
algorithms (epoch day 0 = 1970-01-01).  They model the date arithmetic the
JavaScript runtime (`Date`, `toLocaleString` with an IANA time zone)
performs on the repository's behalf. -/

/-- Epoch day number of a Gregorian calendar date. -/
def daysFromCivil (y m d : Int) : Int :=
  let y' := if m ≤ 2 then y - 1 else y
  let era := y'.ediv 400
  let yoe := y' - era * 400
  let mp := if m ≤ 2 then m + 9 else m - 3
  let doy := (153 * mp + 2).ediv 5 + d - 1
  let doe := yoe * 365 + yoe.ediv 4 - yoe.ediv 100 + doy
  era * 146097 + doe - 719468

/-- Gregorian calendar date (year, month, day) of an epoch day number. -/
def civilFromDays (z0 : Int) : Int × Int × Int :=
  let z := z0 + 719468
  let era := z.ediv 146097
  let doe := z.emod 146097
  let yoe := (doe - doe.ediv 1460 + doe.ediv 36524 - doe.ediv 146096).ediv 365
  let y := yoe + era * 400
  let doy := doe - (365 * yoe + yoe.ediv 4 - yoe.ediv 100)
  let mp := (5 * doy + 2).ediv 153
  let d := doy - (153 * mp + 2).ediv 5 + 1
  let m := if mp < 10 then mp + 3 else mp - 9
  (if m ≤ 2 then y + 1 else y, m, d)

/-- First epoch day `≥ z` that is a Sunday (epoch day 0 was a Thursday). -/
def firstSundayOnOrAfter (z : Int) : Int :=
  z + (7 - (z + 4).emod 7).emod 7

def secondSundayOfMarch (y : Int) : Int :=
  firstSundayOnOrAfter (daysFromCivil y 3 1) + 7

def firstSundayOfNovember (y : Int) : Int :=
  firstSundayOnOrAfter (daysFromCivil y 11 1)

/-- Whether an epoch-millisecond instant falls in US daylight-saving time
for the America/New_York zone, under the rule in force since 2007 (DST
from the second Sunday of March 02:00 EST = 07:00 UTC to the first Sunday
of November 02:00 EDT = 06:00 UTC) — the rule the runtime's tz database
applies to every instant this repository handles. -/
def isNyDST (ms : Int) : Bool :=
  let y := (civilFromDays (ms.ediv 86400000)).1
  let startMs := secondSundayOfMarch y * 86400000 + 7 * 3600000
  let stopMs := firstSundayOfNovember y * 86400000 + 6 * 3600000
  decide (startMs ≤ ms) && decide (ms < stopMs)

/-- UTC offset of America/New_York at an instant, in milliseconds. -/
def nyOffsetMs (ms : Int) : Int :=
  if isNyDST ms then -4 * 3600000 else -5 * 3600000

/-- A wall-clock date and time. -/
structure CivilTime where
  year : Int
  month : Int
  day : Int
  hour : Int
  minute : Int
  second : Int
deriving DecidableEq, Repr

/-- Wall-clock components of a local epoch-millisecond value. -/
def civilOfMs (lms : Int) : CivilTime :=
  let days := lms.ediv 86400000
  let rem := lms.emod 86400000
  let ymd := civilFromDays days
  let secs := rem.ediv 1000
  ⟨ymd.1, ymd.2.1, ymd.2.2, secs.ediv 3600, (secs.ediv 60).emod 60, secs.emod 60⟩

/-- America/New_York wall-clock components of a UTC instant. -/
def nyCivil (ms : Int) : CivilTime := civilOfMs (ms + nyOffsetMs ms)

def pad2 (n : Int) : String :=
  if n < 10 then "0" ++ toString n else toString n

def pad3 (n : Int) : String :=
  if n < 10 then "00" ++ toString n
  else if n < 100 then "0" ++ toString n
  else toString n

def monthName : Int → String
  | 1 => "January"
  | 2 => "February"
  | 3 => "March"
  | 4 => "April"
  | 5 => "May"
  | 6 => "June"
  | 7 => "July"
  | 8 => "August"
  | 9 => "September"
  | 10 => "October"
  | 11 => "November"
  | 12 => "December"
  | _ => "Unknown"

/-- The `YYYY-MM-DDTHH:mm:ss` string `convertToEST` assembles from the
2-digit `en-US` `toLocaleString` fields (src/index.ts lines 36-57). -/
def estDatetime (ms : Int) : String :=
  let c := nyCivil ms
  toString c.year ++ "-" ++ pad2 c.month ++ "-" ++ pad2 c.day ++ "T" ++
    pad2 c.hour ++ ":" ++ pad2 c.minute ++ ":" ++ pad2 c.second

def hour12Str (h : Int) : String :=
  let hm := h.emod 12
  toString (if hm = 0 then 12 else hm)

/-- The human-readable `en-US` long form `convertToEST` requests from
`toLocaleString` (src/index.ts lines 60-68), e.g.
`November 7, 2025 at 11:59 PM`. -/
def estReadable (ms : Int) : String :=
  let c := nyCivil ms
  monthName c.month ++ " " ++ toString c.day ++ ", " ++ toString c.year ++
    " at " ++ hour12Str c.hour ++ ":" ++ pad2 c.minute ++ " " ++
    (if c.hour < 12 then "AM" else "PM")

/-- Result pair of `convertToEST`. -/
structure EstResult where
  datetime : String
  readable : String
deriving DecidableEq, Repr

def convertMsToEST (ms : Int) : EstResult := ⟨estDatetime ms, estReadable ms⟩

/-! ### Parsing UTC date strings

Model of `new Date(string).getTime()` for the ISO/UTC strings Canvas emits
(`YYYY-MM-DDTHH:mm:ssZ`, optionally with a fractional-second part as
produced by `toISOString`).  Any other shape is an invalid date (`NaN`),
modelled as `none`. -/

def splitOnCharAux (c : Char) : List Char → List Char → List (List Char)
  | [], acc => [acc.reverse]
  | x :: xs, acc =>
    if x = c then acc.reverse :: splitOnCharAux c xs []
    else splitOnCharAux c xs (x :: acc)

def splitOnChar (c : Char) (l : List Char) : List (List Char) :=
  splitOnCharAux c l []

def parseDigits (l : List Char) : Option Nat :=
  if l ≠ [] ∧ l.all Char.isDigit then
    some (l.foldl (fun n c => n * 10 + (c.toNat - 48)) 0)
  else none

def parseSeconds (l : List Char) : Option (Nat × Nat) :=
  match splitOnChar '.' l with
  | [ss] => (parseDigits ss).map fun s => (s, 0)
  | [ss, fr] =>
    match parseDigits ss, parseDigits fr with
    | some s, some f => if fr.length = 3 then some (s, f) else none
    | _, _ => none
  | _ => none

/-- Epoch milliseconds of a UTC civil date-time. -/
def msOfCivil (y mo d h mi s milli : Int) : Int :=
  daysFromCivil y mo d * 86400000 + h * 3600000 + mi * 60000 + s * 1000 + milli

def parseISO (str : String) : Option Int :=
  match splitOnChar 'T' str.data with
  | [ds, ts] =>
    match ts.reverse with
    | 'Z' :: tsRev =>
      match splitOnChar '-' ds, splitOnChar ':' tsRev.reverse with
      | [ys, mos, dss], [hs, mins, secs] =>
        match parseDigits ys, parseDigits mos, parseDigits dss,
              parseDigits hs, parseDigits mins, parseSeconds secs with
        | some y, some mo, some d, some h, some mi, some (s, milli) =>
          if 1 ≤ mo ∧ mo ≤ 12 ∧ 1 ≤ d ∧ d ≤ 31 ∧ h ≤ 23 ∧ mi ≤ 59 ∧ s ≤ 59 then
            some (msOfCivil y mo d h mi s milli)
          else none
        | _, _, _, _, _, _ => none
      | _, _ => none
    | _ => none
  | _ => none

/-- Model of `Date.prototype.toISOString` on a valid instant. -/
def toISOString (ms : Int) : String :=
  let c := civilOfMs ms
  let milli := ms.emod 1000
  toString c.year ++ "-" ++ pad2 c.month ++ "-" ++ pad2 c.day ++ "T" ++
    pad2 c.hour ++ ":" ++ pad2 c.minute ++ ":" ++ pad2 c.second ++ "." ++
    pad3 milli ++ "Z"

/-- Model of `convertToEST` (src/index.ts lines 19-75): `none` for a falsy
input, `none` for an unparseable date (the `isNaN` guard), otherwise the
America/New_York `datetime`/`readable` pair. -/
def convertToEST (utcDateString : Option String) : Option EstResult :=
  match utcDateString with
  | none => none
  | some s =>
    if s = "" then none
    else
      match parseISO s with
      | none => none
      | some ms => some (convertMsToEST ms)

/-! ### Canvas client (src/canvas.ts)

A raw assignment record as returned by `GET /courses/{id}/assignments`.
Every field access in the source is optional, so fields are `Option`s;
`course_name`/`course_id` are stamped onto the record by the per-course
fetch loop (lines 124-127). -/

structure RawAssignment where
  id : Option Int := none
  name : Option String := none
  published : Bool := false
  due_at : Option String := none
  is_quiz_assignment : Bool := false
  quiz_id : Option Int := none
  submission_types : Option (List String) := none
  discussion_topic : Bool := false
  points_possible : Option Int := none
  workflow_state : Option String := none
  html_url : Option String := none
  description : Option String := none
  course_name : Option String := none
  course_id : Option Int := none
deriving DecidableEq, Repr

structure Course where
  id : Int
  name : String
deriving DecidableEq, Repr

/-- The inline type detection of the transform in `getUpcomingAssignments`
(src/canvas.ts lines 219-229): quiz when `is_quiz_assignment` or a truthy
`quiz_id` is present; otherwise discussion when `submission_types`
includes `"discussion_topic"`; otherwise assignment. -/
def transformType (a : RawAssignment) : String :=
  if a.is_quiz_assignment || truthyN a.quiz_id then "quiz"
  else if (a.submission_types.getD []).contains "discussion_topic" then "discussion"
  else "assignment"

/-- A calendar-event-shaped raw record, as read by the (uncalled) helper
`detectItemType`: fields live one level down under `assignment`. -/
structure RawEventWrapper where
  assignment : Option RawAssignment := none
  type : Option String := none
deriving DecidableEq, Repr

/-- Model of the private helper `CanvasClient.detectItemType`
(src/canvas.ts lines 65-83).  This helper has no call site in the
repository; the executed normalization uses `transformType` above. -/
def detectItemType (event : RawEventWrapper) : String :=
  if truthyN (event.assignment.bind (·.quiz_id)) ||
      ((event.assignment.bind (·.submission_types)).getD []).contains "online_quiz" then
    "quiz"
  else if (event.assignment.map (·.discussion_topic)).getD false ||
      ((event.assignment.bind (·.submission_types)).getD []).contains "discussion_topic" then
    "discussion"
  else if event.assignment.isSome || event.type = some "assignment" then
    "assignment"
  else
    "event"

/-- The normalized item built by the transform (src/canvas.ts lines
231-247).  This is also exactly the shape the `sync_to_calendar` loop
consumes. -/
structure TransformedItem where
  id : Option Int := none
  title : Option String := none
  name : Option String := none
  type : String := "assignment"
  due_at : Option String := none
  start_at : Option String := none
  end_at : Option String := none
  all_day : Bool := false
  description : String := ""
  points_possible : Option Int := none
  context_name : Option String := none
  context_code : String := ""
  workflow_state : Option String := none
  html_url : Option String := none
  assignment : Option RawAssignment := none
deriving DecidableEq, Repr

/-- The per-item transform (src/canvas.ts lines 231-247). -/
def transform (a : RawAssignment) : TransformedItem :=
  { id := a.id
    title := a.name
    name := a.name
    type := transformType a
    due_at := a.due_at
    start_at := a.due_at
    end_at := a.due_at
    all_day := false
    description := a.description.getD ""
    points_possible := a.points_possible
    context_name := a.course_name
    context_code := "course_" ++ (match a.course_id with
      | some i => toString i
      | none => "undefined")
    workflow_state := a.workflow_state
    html_url := a.html_url
    assignment := some a }

/-- Stamping of course context onto each fetched assignment
(src/canvas.ts lines 124-127). -/
def stampCourse (c : Course) (a : RawAssignment) : RawAssignment :=
  { a with course_name := some c.name, course_id := some c.id }

/-- The per-course fetch loop (src/canvas.ts lines 116-138): on the first
per-course fault the caught error is re-thrown, wrapped in a
course-naming message, and nothing is returned. -/
def fetchAllAssignments (fetch : Course → Except String (List RawAssignment)) :
    List Course → Except String (List RawAssignment)
  | [] => .ok []
  | c :: cs =>
    match fetch c with
    | .ok assignments =>
      match fetchAllAssignments fetch cs with
      | .ok rest => .ok (assignments.map (stampCourse c) ++ rest)
      | .error e => .error e
    | .error msg =>
      .error ("Failed to fetch assignments for course \"" ++ c.name ++ "\": " ++ msg)

/-- The published-with-due-date filter (src/canvas.ts lines 149-162). -/
def publishedWithDueDate (a : RawAssignment) : Bool :=
  a.published && truthyS a.due_at

/-- Model of `CanvasClient.getUpcomingAssignments` (src/canvas.ts lines
86-276), parameterized by the course list the `/courses` endpoint returns
and by the per-course assignment fetch. -/
def getUpcomingAssignments (courses : List Course)
    (fetch : Course → Except String (List RawAssignment)) :
    Except String (List TransformedItem) :=
  match fetchAllAssignments fetch courses with
  | .ok allAssignments =>
    .ok (((allAssignments.filter publishedWithDueDate).map transform))
  | .error e => .error e

/-! ### The sync_to_calendar handler (src/index.ts lines 563-735) -/

/-- A reminder override in a Google Calendar event payload. -/
structure Reminder where
  method : String
  minutes : Int
deriving DecidableEq, Repr

/-- The Google Calendar event payload built by the sync loop
(src/index.ts lines 674-692). -/
structure CalendarEvent where
  summary : String
  description : String
  startDateTime : String
  startTimeZone : String
  endDateTime : String
  endTimeZone : String
  remindersUseDefault : Bool
  remindersOverrides : List Reminder
deriving DecidableEq, Repr

/-- The `typeInfo` lookup with its `|| typeInfo['event']` fallback
(src/index.ts lines 665-672): emoji and label per item type. -/
def typeInfo (t : String) : String × String :=
  if t = "assignment" then ("📚", "Canvas Assignment")
  else if t = "quiz" then ("📝", "Canvas Quiz")
  else if t = "discussion" then ("💬", "Canvas Discussion")
  else ("📅", "Calendar Event")

/-- `assignment.due_at || assignment.assignment?.due_at`
(src/index.ts line 601). -/
def dueAtField (a : TransformedItem) : Option String :=
  jsOrS a.due_at (a.assignment.bind (·.due_at))

/-- `assignment.title || assignment.name || assignment.assignment?.name`
(src/index.ts line 602). -/
def nameField (a : TransformedItem) : Option String :=
  jsOrS a.title (jsOrS a.name (a.assignment.bind (·.name)))

/-- `assignment.points_possible || assignment.assignment?.points_possible
|| 'N/A'` as interpolated into the description (src/index.ts line 676). -/
def pointsText (a : TransformedItem) : String :=
  match a.points_possible with
  | some n =>
    if n ≠ 0 then toString n
    else match a.assignment.bind (·.points_possible) with
      | some m => if m ≠ 0 then toString m else "N/A"
      | none => "N/A"
  | none =>
    match a.assignment.bind (·.points_possible) with
    | some m => if m ≠ 0 then toString m else "N/A"
    | none => "N/A"

/-- `assignment.context_name || 'N/A'` (src/index.ts line 676). -/
def courseText (a : TransformedItem) : String :=
  (jsOrS a.context_name (some "N/A")).getD "N/A"

/-- `assignment.html_url || assignment.assignment?.html_url || ''`
(src/index.ts line 676). -/
def linkText (a : TransformedItem) : String :=
  (jsOrS a.html_url (jsOrS (a.assignment.bind (·.html_url)) (some ""))).getD ""

/-- The event payload literal (src/index.ts lines 674-692). -/
def buildEvent (a : TransformedItem) (nf : Option String)
    (dueEST endEST : EstResult) : CalendarEvent :=
  let info := typeInfo a.type
  { summary := info.1 ++ " " ++ interpS nf
    description := info.2 ++ "\n\nDue: " ++ dueEST.readable ++ " EST\nPoints: " ++
      pointsText a ++ "\nCourse: " ++ courseText a ++ "\n\nLink: " ++ linkText a
    startDateTime := dueEST.datetime
    startTimeZone := "America/New_York"
    endDateTime := endEST.datetime
    endTimeZone := "America/New_York"
    remindersUseDefault := false
    remindersOverrides := [⟨"popup", 24 * 60⟩, ⟨"popup", 60⟩] }

/-- Outcome of one iteration of the sync loop: exactly one entry is pushed
to `synced` or to `skipped`. -/
inductive Outcome where
  | synced (msg : String)
  | skipped (msg : String)
deriving DecidableEq, Repr

/-- `Math.ceil((dueDateUTC.getTime() - now.getTime()) / (1000*60*60*24))`
(src/index.ts line 626): the exact integer ceiling of the millisecond
difference divided by one day. -/
def daysDiff (dueMs nowMs : Int) : Int :=
  -((-(dueMs - nowMs)) / 86400000)

/-- The body of the window branch (src/index.ts lines 629-698): convert
the due date, convert the one-hour-later end instant (the source round-trips
it through `new Date(...).toISOString()`), build the payload, call the
calendar gateway, and catch any gateway fault into a skip reason
(the surrounding `try`/`catch`, lines 585-710). -/
def admitBranch (create : CalendarEvent → Except String Unit)
    (a : TransformedItem) (nf : Option String) (s : String) (ms : Int) : Outcome :=
  match convertToEST (some s) with
  | none => .skipped (interpS nf ++ " (date conversion failed)")
  | some dueEST =>
    match convertToEST (some (toISOString (ms + 3600000))) with
    | none => .skipped (interpS nf ++ " (end date conversion failed)")
    | some endEST =>
      let event := buildEvent a nf dueEST endEST
      match create event with
      | .ok _ =>
        .synced (interpS nf ++ " (" ++ (typeInfo a.type).2 ++ ") - Due: " ++ dueEST.readable)
      | .error e =>
        .skipped (interpS (jsOrS a.title (jsOrS a.name (some "Unknown"))) ++
          " (error: " ++ e ++ ")")

/-- One iteration of the sync loop (src/index.ts lines 584-711). -/
def stepSync (daysAhead nowMs : Int) (create : CalendarEvent → Except String Unit)
    (a : TransformedItem) : Outcome :=
  let nf := nameField a
  match dueAtField a with
  | none =>
    .skipped (interpS (jsOrS nf (some "Unknown")) ++
      " (no due date - checked due_at and assignment.due_at)")
  | some s =>
    if s = "" then
      .skipped (interpS (jsOrS nf (some "Unknown")) ++
        " (no due date - checked due_at and assignment.due_at)")
    else
      match parseISO s with
      | none => .skipped (interpS nf ++ " (invalid due date: " ++ s ++ ")")
      | some ms =>
        let d := daysDiff ms nowMs
        if d ≤ daysAhead ∧ 0 < d then
          admitBranch create a nf s ms
        else
          .skipped (interpS nf ++ " (outside " ++ toString daysAhead ++
            " day window - " ++ toString d ++ " days away)")

/-- The loop over all fetched items, accumulating the `synced` and
`skipped` arrays in order. -/
def syncFold (daysAhead nowMs : Int) (create : CalendarEvent → Except String Unit) :
    List TransformedItem → List String × List String → List String × List String
  | [], acc => acc
  | a :: rest, acc =>
    let acc' :=
      match stepSync daysAhead nowMs create a with
      | .synced m => (acc.1 ++ [m], acc.2)
      | .skipped m => (acc.1, acc.2 ++ [m])
    syncFold daysAhead nowMs create rest acc'

/-- `(args?.daysAhead as number) || 14` (src/index.ts line 568). -/
def sync_to_calendar_daysAhead (arg : Option Int) : Int := jsNum arg 14

/-- `(args?.daysAhead as number) || 7` (src/index.ts line 327). -/
def list_calendar_events_daysAhead (arg : Option Int) : Int := jsNum arg 7

/-- `(args?.maxResults as number) || 10` (src/index.ts line 328). -/
def list_calendar_events_maxResults (arg : Option Int) : Int := jsNum arg 10

/-- The `sync_to_calendar` handler (src/index.ts lines 563-735): apply the
`daysAhead` default, run the loop over the fetched items, return the
`synced` and `skipped` arrays. -/
def sync_to_calendar (daysAheadArg : Option Int) (nowMs : Int)
    (create : CalendarEvent → Except String Unit)
    (items : List TransformedItem) : List String × List String :=
  syncFold (sync_to_calendar_daysAhead daysAheadArg) nowMs create items ([], [])

/-! ### The update_calendar_event handler (src/index.ts lines 367-406) -/

/-- The partial `updates` object assembled by the handler. -/
structure EventUpdates where
  updSummary : Option String := none
  updDescription : Option String := none
  updStart : Option (String × String) := none
  updEnd : Option (String × String) := none
deriving DecidableEq, Repr

/-- Model of the update assembly (src/index.ts lines 373-394): `title`,
`startTime` and `endTime` are included only when truthy, `description`
whenever it is not `undefined`. -/
def buildUpdates (title description startTime endTime timezone : Option String) :
    EventUpdates :=
  let tz := (jsOrS timezone (some "America/New_York")).getD "America/New_York"
  let u0 : EventUpdates := {}
  let u1 := if truthyS title then { u0 with updSummary := title } else u0
  let u2 := if description.isSome then { u1 with updDescription := description } else u1
  let u3 := if truthyS startTime then
      { u2 with updStart := startTime.map (fun v => (v, tz)) } else u2
  if truthyS endTime then
    { u3 with updEnd := endTime.map (fun v => (v, tz)) } else u3

/-! ### Shared helper lemmas -/

/-- The sync loop handles list concatenation compositionally: the items
after any point are processed from whatever accumulator the earlier items
produced — no outcome of an earlier item can abort the remainder. -/
theorem syncFold_append (daysAhead nowMs : Int)
    (create : CalendarEvent → Except String Unit) :
    ∀ (l1 l2 : List TransformedItem) (acc : List String × List String),
      syncFold daysAhead nowMs create (l1 ++ l2) acc =
        syncFold daysAhead nowMs create l2 (syncFold daysAhead nowMs create l1 acc)
  | [], _, _ => rfl
  | a :: rest, l2, acc => by
    simp only [List.cons_append, syncFold]
    exact syncFold_append daysAhead nowMs create rest l2 _

/-- Every loop iteration appends exactly one entry to exactly one of the
two accumulators. -/
theorem syncFold_length (daysAhead nowMs : Int)
    (create : CalendarEvent → Except String Unit) :
    ∀ (items : List TransformedItem) (acc : List String × List String),
      (syncFold daysAhead nowMs create items acc).1.length +
        (syncFold daysAhead nowMs create items acc).2.length =
        items.length + acc.1.length + acc.2.length
  | [], acc => by simp [syncFold]
  | a :: rest, acc => by
    have ih := syncFold_length daysAhead nowMs create rest
    cases h : stepSync daysAhead nowMs create a <;>
      simp only [syncFold, h] <;> rw [ih] <;> simp <;> omega

/-- A failed per-course fetch anywhere in the course list makes the whole
aggregation fail. -/
theorem fetchAllAssignments_error_of_mem
    (fetch : Course → Except String (List RawAssignment)) :
    ∀ (courses : List Course) (c : Course) (e : String),
      c ∈ courses → fetch c = .error e →
      ∃ e', fetchAllAssignments fetch courses = .error e'
  | [], c, e, hmem, _ => absurd hmem (List.not_mem_nil c)
  | c0 :: cs, c, e, hmem, hfail => by
    cases hf : fetch c0 with
    | error msg =>
      exact ⟨"Failed to fetch assignments for course \"" ++ c0.name ++ "\": " ++ msg,
        by simp [fetchAllAssignments, hf]⟩
    | ok as =>
      rcases List.mem_cons.mp hmem with rfl | hmem'
      · rw [hf] at hfail; exact absurd hfail (by simp)
      · obtain ⟨e', he'⟩ := fetchAllAssignments_error_of_mem fetch cs c e hmem' hfail
        exact ⟨e', by simp [fetchAllAssignments, hf, he']⟩

/-- Reduction of one sync iteration on an item whose due date resolves,
parses, and falls inside the window: the loop body proceeds to the
admission branch. -/
theorem stepSync_admit (daysAhead nowMs : Int)
    (create : CalendarEvent → Except String Unit)
    (a : TransformedItem) (s : String) (ms : Int)
    (hdue : dueAtField a = some s) (hne : s ≠ "") (hparse : parseISO s = some ms)
    (h : daysDiff ms nowMs ≤ daysAhead ∧ 0 < daysDiff ms nowMs) :
    stepSync daysAhead nowMs create a = admitBranch create a (nameField a) s ms := by
  simp only [stepSync, hdue, hparse]
  rw [if_neg hne, if_pos h]

/-- A serialized instant is never the empty string, so the falsy-input
guard of `convertToEST` does not fire on `toISOString` output. -/
theorem toISOString_ne_empty (m : Int) : toISOString m ≠ "" := by
  unfold toISOString
  intro h
  have hd := congrArg String.data h
  simp [String.data_append] at hd

/-! ### Claim theorems -/

/-- C6: the timezone conversion crosses calendar-date boundaries
correctly: applied to the UTC instant `2025-11-08T04:59:59Z`,
`convertToEST` returns the local datetime `2025-11-07T23:59:59` (one
calendar day earlier than the UTC date, in America/New_York) and a
display string containing `November 7, 2025`. -/
theorem convertToEST_crosses_day_boundary :
    convertToEST (some "2025-11-08T04:59:59Z") =
      some ⟨"2025-11-07T23:59:59", "November 7, 2025 at 11:59 PM"⟩ ∧
    ∃ pre post, "November 7, 2025 at 11:59 PM" = pre ++ "November 7, 2025" ++ post :=
  ⟨by decide, "", " at 11:59 PM", by decide⟩

/-- C9: numeric tool arguments equal to `0` are treated the same as
absent arguments, because the defaults are applied with falsy coalescing
(`|| 14`, `|| 7`, `|| 10`): `sync_to_calendar` with `daysAhead = 0`
behaves exactly as with the argument absent (default 14), and
`list_calendar_events` with `daysAhead = 0` or `maxResults = 0` uses the
defaults 7 and 10 — a zero window never yields an empty window. -/
theorem zero_arguments_fall_back_to_defaults :
    sync_to_calendar_daysAhead (some 0) = 14 ∧
    sync_to_calendar_daysAhead none = 14 ∧
    list_calendar_events_daysAhead (some 0) = 7 ∧
    list_calendar_events_daysAhead none = 7 ∧
    list_calendar_events_maxResults (some 0) = 10 ∧
    list_calendar_events_maxResults none = 10 ∧
    ∀ (nowMs : Int) (create : CalendarEvent → Except String Unit)
      (items : List TransformedItem),
      sync_to_calendar (some 0) nowMs create items =
        sync_to_calendar none nowMs create items :=
  ⟨rfl, rfl, rfl, rfl, rfl, rfl, fun _ _ _ => rfl⟩

/-- C10: `update_calendar_event` handles empty strings asymmetrically:
the `description` argument is copied into the update whenever it is not
`undefined` (so an empty string clears the stored description), whereas
`title`, `startTime` and `endTime` are included only when truthy (an
empty string for those is silently ignored). -/
theorem update_event_empty_string_asymmetry :
    (∀ t d s e tz, (buildUpdates t d s e tz).updDescription = d) ∧
    (∀ t d s e tz, (buildUpdates t d s e tz).updSummary =
      if truthyS t then t else none) ∧
    (∀ t d s e tz, (buildUpdates t d s e tz).updStart =
      if truthyS s then
        s.map (fun v => (v, (jsOrS tz (some "America/New_York")).getD "America/New_York"))
      else none) ∧
    (∀ t d s e tz, (buildUpdates t d s e tz).updEnd =
      if truthyS e then
        e.map (fun v => (v, (jsOrS tz (some "America/New_York")).getD "America/New_York"))
      else none) ∧
    buildUpdates (some "") (some "") (some "") (some "") none =
      { updDescription := some "" } := by
  refine ⟨?_, ?_, ?_, ?_, by decide⟩ <;>
    · intro t d s e tz
      unfold buildUpdates
      split_ifs <;> simp_all

/-- C4: `getUpcomingAssignments` is fail-fast across courses: if fetching
the assignment list of any course in the list raises a fault, the whole
operation returns that fault and no partial results from other courses
are returned. -/
theorem getUpcomingAssignments_fail_fast
    (courses : List Course) (fetch : Course → Except String (List RawAssignment))
    (c : Course) (e : String)
    (hmem : c ∈ courses) (hfail : fetch c = .error e) :
    (∃ e', getUpcomingAssignments courses fetch = .error e') ∧
    ∀ items, getUpcomingAssignments courses fetch ≠ .ok items := by
  obtain ⟨e', he'⟩ := fetchAllAssignments_error_of_mem fetch courses c e hmem hfail
  exact ⟨⟨e', by simp [getUpcomingAssignments, he']⟩,
    fun items => by simp [getUpcomingAssignments, he']⟩

/-- C4 witness: three courses, the second of which faults; the whole
fetch faults and the first course's items are not returned. -/
theorem getUpcomingAssignments_fail_fast_witness :
    (∃ e', getUpcomingAssignments [⟨1, "Algebra"⟩, ⟨2, "Biology"⟩, ⟨3, "Chemistry"⟩]
        (fun c => if c.id = 2 then .error "HTTP 503" else
          .ok [{ name := some "HW1", published := true,
                 due_at := some "2025-11-21T05:00:00Z" }]) = .error e') ∧
    ∀ items, getUpcomingAssignments [⟨1, "Algebra"⟩, ⟨2, "Biology"⟩, ⟨3, "Chemistry"⟩]
        (fun c => if c.id = 2 then .error "HTTP 503" else
          .ok [{ name := some "HW1", published := true,
                 due_at := some "2025-11-21T05:00:00Z" }]) ≠ .ok items :=
  getUpcomingAssignments_fail_fast _ _ ⟨2, "Biology"⟩ "HTTP 503" (by decide) rfl

/-- C1: for every fetched item whose due-date field resolves and parses,
`daysDiff` is the exact integer ceiling of `(dueAt - now) / 1 day` (first
conjunct: the two inequalities characterize the ceiling of the
millisecond difference divided by 86400000), and the item is admitted to
calendar-event creation (the `admitBranch` body) if and only if
`0 < daysDiff ∧ daysDiff ≤ daysAhead`; otherwise it is skipped with the
outside-window reason. -/
theorem sync_window_admission
    (daysAhead nowMs : Int) (create : CalendarEvent → Except String Unit)
    (a : TransformedItem) (s : String) (ms : Int)
    (hdue : dueAtField a = some s) (hne : s ≠ "") (hparse : parseISO s = some ms) :
    (86400000 * (daysDiff ms nowMs - 1) < ms - nowMs ∧
      ms - nowMs ≤ 86400000 * daysDiff ms nowMs) ∧
    (0 < daysDiff ms nowMs ∧ daysDiff ms nowMs ≤ daysAhead →
      stepSync daysAhead nowMs create a = admitBranch create a (nameField a) s ms) ∧
    (¬(0 < daysDiff ms nowMs ∧ daysDiff ms nowMs ≤ daysAhead) →
      stepSync daysAhead nowMs create a =
        .skipped (interpS (nameField a) ++ " (outside " ++ toString daysAhead ++
          " day window - " ++ toString (daysDiff ms nowMs) ++ " days away)")) := by
  refine ⟨?_, ?_, ?_⟩
  · have h1 := Int.ediv_add_emod (-(ms - nowMs)) 86400000
    have h2 := Int.emod_nonneg (-(ms - nowMs)) (by norm_num : (86400000 : ℤ) ≠ 0)
    have h3 := Int.emod_lt_of_pos (-(ms - nowMs)) (by norm_num : (0 : ℤ) < 86400000)
    unfold daysDiff
    constructor <;> linarith
  · intro h
    exact stepSync_admit daysAhead nowMs create a s ms hdue hne hparse ⟨h.2, h.1⟩
  · intro h
    simp only [stepSync, hdue, hparse]
    rw [if_neg hne, if_neg (fun hc => h ⟨hc.2, hc.1⟩)]

/-- C1 witness: with now = 2025-11-20T00:00:00Z, an item due exactly now
(`daysDiff = 0`) is skipped; an item due in exactly one day is admitted
under `daysAhead = 1` (and syncs); an item due in 15 days is skipped
under `daysAhead = 14`. -/
theorem sync_window_admission_witness :
    (0 : Int) < daysDiff (msOfCivil 2025 11 21 0 0 0 0) (msOfCivil 2025 11 20 0 0 0 0) ∧
    stepSync 1 (msOfCivil 2025 11 20 0 0 0 0) (fun _ => .ok ())
      { title := some "A", type := "assignment", due_at := some "2025-11-21T00:00:00Z" } =
      .synced "A (Canvas Assignment) - Due: November 20, 2025 at 7:00 PM" ∧
    stepSync 14 (msOfCivil 2025 11 20 0 0 0 0) (fun _ => .ok ())
      { title := some "A", type := "assignment", due_at := some "2025-11-20T00:00:00Z" } =
      .skipped "A (outside 14 day window - 0 days away)" ∧
    stepSync 14 (msOfCivil 2025 11 20 0 0 0 0) (fun _ => .ok ())
      { title := some "A", type := "assignment", due_at := some "2025-12-05T00:00:00Z" } =
      .skipped "A (outside 14 day window - 15 days away)" := by
  refine ⟨by decide, ?_, ?_, ?_⟩
  · rw [(sync_window_admission 1 (msOfCivil 2025 11 20 0 0 0 0) (fun _ => .ok ()) _
      "2025-11-21T00:00:00Z" (msOfCivil 2025 11 21 0 0 0 0)
      (by decide) (by decide) (by decide)).2.1 (by decide)]
    decide
  · rw [(sync_window_admission 14 (msOfCivil 2025 11 20 0 0 0 0) (fun _ => .ok ()) _
      "2025-11-20T00:00:00Z" (msOfCivil 2025 11 20 0 0 0 0)
      (by decide) (by decide) (by decide)).2.2 (by decide)]
    decide
  · rw [(sync_window_admission 14 (msOfCivil 2025 11 20 0 0 0 0) (fun _ => .ok ()) _
      "2025-12-05T00:00:00Z" (msOfCivil 2025 12 5 0 0 0 0)
      (by decide) (by decide) (by decide)).2.2 (by decide)]
    decide

/-- C2 counterexample: a raw item with no quiz identifier whose
submission-type set includes "online_quiz" is normalized with
`kind = assignment`, not `quiz` — the executed transform (src/canvas.ts
lines 219-229) never consults the submission-type set for quizzes, so the
claimed classification rule is false for it. -/
theorem transformType_counterexample :
    ∃ item, getUpcomingAssignments [⟨1, "CS 101"⟩]
        (fun _ => .ok [{ name := some "Quiz 1", published := true,
                         due_at := some "2025-11-21T05:00:00Z",
                         submission_types := some ["online_quiz"] }]) = .ok [item] ∧
      item.type = "assignment" ∧ ¬ item.type = "quiz" :=
  ⟨_, rfl, rfl, by decide⟩

/-- C2 (amended): the executed normalization assigns the kind by
first-match priority over the flat assignment record: `quiz` when
`is_quiz_assignment` or a truthy `quiz_id` is present; otherwise
`discussion` when its submission-type set includes "discussion_topic";
otherwise `assignment`; the `event` kind is never produced by this path.
In particular any item with a quiz marker is classified quiz even when a
discussion marker is also present. -/
theorem transformType_priority (a : RawAssignment) :
    (transformType a = "quiz" ↔ (a.is_quiz_assignment || truthyN a.quiz_id) = true) ∧
    (transformType a = "discussion" ↔
      (a.is_quiz_assignment || truthyN a.quiz_id) = false ∧
        (a.submission_types.getD []).contains "discussion_topic" = true) ∧
    (transformType a = "assignment" ↔
      (a.is_quiz_assignment || truthyN a.quiz_id) = false ∧
        (a.submission_types.getD []).contains "discussion_topic" = false) ∧
    transformType a ≠ "event" := by
  unfold transformType
  cases hq : (a.is_quiz_assignment || truthyN a.quiz_id) <;>
    cases hd : (a.submission_types.getD []).contains "discussion_topic" <;>
      simp

/-- C2 witness: quiz wins the tie-break — an item carrying both the quiz
marker and a discussion submission type is classified quiz. -/
theorem transformType_priority_witness :
    transformType { is_quiz_assignment := true,
                    submission_types := some ["discussion_topic"] } = "quiz" :=
  (transformType_priority _).1.mpr (by decide)

/-- C3 counterexample: a raw item lacking every name-bearing field but
published with a due date still becomes a normalized item — with
`title = none` — because the pipeline's filter (src/canvas.ts lines
149-162) checks only `published` and `due_at`, never a name; so the
claimed "no NormalizedItem without a title" invariant is false. -/
theorem normalized_item_without_title_counterexample :
    ∃ item, getUpcomingAssignments [⟨1, "CS 101"⟩]
        (fun _ => .ok [{ published := true,
                         due_at := some "2025-11-21T05:00:00Z" }]) = .ok [item] ∧
      item.title = none :=
  ⟨_, rfl, rfl⟩

/-- C3 (amended): every item produced by `getUpcomingAssignments` has a
populated (truthy) `due_at` — a raw item lacking a due date never becomes
a normalized item — but no title check exists: a raw item without any
name still produces a normalized item whose `title` is unset. -/
theorem normalized_items_have_due_dates
    (courses : List Course) (fetch : Course → Except String (List RawAssignment))
    (items : List TransformedItem)
    (h : getUpcomingAssignments courses fetch = .ok items) :
    ∀ it ∈ items, ∃ s, it.due_at = some s ∧ s ≠ "" := by
  unfold getUpcomingAssignments at h
  cases hf : fetchAllAssignments fetch courses with
  | error e => rw [hf] at h; cases h
  | ok all =>
    rw [hf] at h
    simp only [Except.ok.injEq] at h
    subst h
    intro it hit
    obtain ⟨a, ha, rfl⟩ := List.mem_map.mp hit
    have hp := List.of_mem_filter ha
    unfold publishedWithDueDate at hp
    have ht : truthyS a.due_at = true := (Bool.and_eq_true _ _ |>.mp hp).2
    unfold truthyS at ht
    cases hd : a.due_at with
    | none => rw [hd] at ht; cases ht
    | some s =>
      rw [hd] at ht
      refine ⟨s, by simp [transform, hd], ?_⟩
      simpa using ht

/-- C3 witness: on a concrete fetched course the produced item's due date
is populated. -/
theorem normalized_items_have_due_dates_witness :
    ∃ s, (transform (stampCourse ⟨1, "CS 101"⟩
        { name := some "HW1", published := true,
          due_at := some "2025-11-21T05:00:00Z" })).due_at = some s ∧ s ≠ "" :=
  normalized_items_have_due_dates [⟨1, "CS 101"⟩]
    (fun _ => .ok [{ name := some "HW1", published := true,
                     due_at := some "2025-11-21T05:00:00Z" }])
    _ rfl _ (by decide)

/-- C5: the sync loop isolates per-item failures — the loop is
compositional over list concatenation, so no item's outcome aborts the
remaining items (first conjunct); and concretely, given 3 admissible items
where calendar creation fails for the 2nd with message "boom", the 3rd is
still attempted and reported, `synced.length = 2`, `skipped.length = 1`,
and the skipped-reason string contains the failure message. -/
theorem sync_per_item_fault_isolation :
    (∀ (daysAhead nowMs : Int) (create : CalendarEvent → Except String Unit)
        (l1 l2 : List TransformedItem) (acc : List String × List String),
      syncFold daysAhead nowMs create (l1 ++ l2) acc =
        syncFold daysAhead nowMs create l2 (syncFold daysAhead nowMs create l1 acc)) ∧
    sync_to_calendar none (msOfCivil 2025 11 20 0 0 0 0)
      (fun ev => if ev.summary = "📚 B" then .error "boom" else .ok ())
      [{ title := some "A", type := "assignment", due_at := some "2025-11-21T05:00:00Z" },
       { title := some "B", type := "assignment", due_at := some "2025-11-22T05:00:00Z" },
       { title := some "C", type := "assignment", due_at := some "2025-11-23T05:00:00Z" }] =
      (["A (Canvas Assignment) - Due: November 21, 2025 at 12:00 AM",
        "C (Canvas Assignment) - Due: November 23, 2025 at 12:00 AM"],
       ["B (error: boom)"]) ∧
    "B (error: boom)" = "B (error: " ++ "boom" ++ ")" :=
  ⟨syncFold_append, by decide, rfl⟩

/-- C8: every item handed to the sync loop contributes exactly one entry
to exactly one of the two result lists, so `synced.length +
skipped.length` equals the number of fetched items. -/
theorem sync_accounts_every_item (daysAheadArg : Option Int) (nowMs : Int)
    (create : CalendarEvent → Except String Unit) (items : List TransformedItem) :
    (sync_to_calendar daysAheadArg nowMs create items).1.length +
      (sync_to_calendar daysAheadArg nowMs create items).2.length = items.length := by
  have h := syncFold_length (sync_to_calendar_daysAhead daysAheadArg) nowMs create items ([], [])
  simpa [sync_to_calendar] using h

/-- C7: for an item admitted to the sync window (due date resolved,
parsed, in window; `hrt` records that serializing the one-hour-later
instant re-parses to itself, which `decide` certifies at any concrete
instant): if the due-date conversion failed the item would be skipped
with reason "(date conversion failed)", and if the end conversion failed,
with "(end date conversion failed)"; the built payload's end time is the
due instant plus exactly one hour converted to America/New_York, it
carries exactly two popup reminders at 1440 and 60 minutes, and its
description embeds the points value or "N/A" and the course name or
"N/A"; creation success yields the synced message and a creation fault is
caught into an "(error: ...)" skip reason. -/
theorem sync_payload_construction
    (daysAhead nowMs : Int) (create : CalendarEvent → Except String Unit)
    (a : TransformedItem) (s : String) (ms : Int)
    (hdue : dueAtField a = some s) (hne : s ≠ "") (hparse : parseISO s = some ms)
    (hwin : daysDiff ms nowMs ≤ daysAhead ∧ 0 < daysDiff ms nowMs)
    (hrt : parseISO (toISOString (ms + 3600000)) = some (ms + 3600000)) :
    (convertToEST (some s) = none →
      stepSync daysAhead nowMs create a =
        .skipped (interpS (nameField a) ++ " (date conversion failed)")) ∧
    (convertToEST (some (toISOString (ms + 3600000))) = none →
      stepSync daysAhead nowMs create a =
        .skipped (interpS (nameField a) ++ " (end date conversion failed)")) ∧
    (buildEvent a (nameField a) (convertMsToEST ms)
        (convertMsToEST (ms + 3600000))).endDateTime = estDatetime (ms + 3600000) ∧
    (buildEvent a (nameField a) (convertMsToEST ms)
        (convertMsToEST (ms + 3600000))).startDateTime = estDatetime ms ∧
    (buildEvent a (nameField a) (convertMsToEST ms)
        (convertMsToEST (ms + 3600000))).remindersUseDefault = false ∧
    (buildEvent a (nameField a) (convertMsToEST ms)
        (convertMsToEST (ms + 3600000))).remindersOverrides =
      [⟨"popup", 1440⟩, ⟨"popup", 60⟩] ∧
    (∃ p1 p2 p3, (buildEvent a (nameField a) (convertMsToEST ms)
        (convertMsToEST (ms + 3600000))).description =
      p1 ++ pointsText a ++ p2 ++ courseText a ++ p3) ∧
    (pointsText a = "N/A" ∨ ∃ n : Int, pointsText a = toString n) ∧
    (courseText a = "N/A" ∨ a.context_name = some (courseText a)) ∧
    (∀ u, create (buildEvent a (nameField a) (convertMsToEST ms)
        (convertMsToEST (ms + 3600000))) = .ok u →
      stepSync daysAhead nowMs create a =
        .synced (interpS (nameField a) ++ " (" ++ (typeInfo a.type).2 ++ ") - Due: " ++
          (convertMsToEST ms).readable)) ∧
    (∀ e, create (buildEvent a (nameField a) (convertMsToEST ms)
        (convertMsToEST (ms + 3600000))) = .error e →
      stepSync daysAhead nowMs create a =
        .skipped (interpS (jsOrS a.title (jsOrS a.name (some "Unknown"))) ++
          " (error: " ++ e ++ ")")) := by
  have hconv : convertToEST (some s) = some (convertMsToEST ms) := by
    simp only [convertToEST]
    rw [if_neg hne, hparse]
  have hend : convertToEST (some (toISOString (ms + 3600000))) =
      some (convertMsToEST (ms + 3600000)) := by
    simp only [convertToEST]
    rw [if_neg (toISOString_ne_empty (ms + 3600000)), hrt]
  have hstep := stepSync_admit daysAhead nowMs create a s ms hdue hne hparse hwin
  have hbranch : admitBranch create a (nameField a) s ms =
      match create (buildEvent a (nameField a) (convertMsToEST ms)
          (convertMsToEST (ms + 3600000))) with
      | .ok _ => .synced (interpS (nameField a) ++ " (" ++ (typeInfo a.type).2 ++
          ") - Due: " ++ (convertMsToEST ms).readable)
      | .error e => .skipped (interpS (jsOrS a.title (jsOrS a.name (some "Unknown"))) ++
          " (error: " ++ e ++ ")") := by
    simp only [admitBranch, hconv, hend]
  refine ⟨?_, ?_, rfl, rfl, rfl, rfl, ?_, ?_, ?_, ?_, ?_⟩
  · intro h0
    rw [hconv] at h0
    exact absurd h0 (by simp)
  · intro h0
    rw [hend] at h0
    exact absurd h0 (by simp)
  · refine ⟨(typeInfo a.type).2 ++ "\n\nDue: " ++ (convertMsToEST ms).readable ++
      " EST\nPoints: ", "\nCourse: ", "\n\nLink: " ++ linkText a, ?_⟩
    simp [buildEvent, String.append_assoc]
  · unfold pointsText
    repeat' split
    all_goals first
      | exact Or.inl rfl
      | exact Or.inr ⟨_, rfl⟩
  · cases hc : a.context_name with
    | none => exact Or.inl (by simp [courseText, jsOrS, hc])
    | some c =>
      rcases eq_or_ne c "" with rfl | hcne
      · exact Or.inl (by simp [courseText, jsOrS, hc])
      · exact Or.inr (by simp [courseText, jsOrS, hc, hcne])
  · intro u hu
    rw [hstep, hbranch, hu]
  · intro e he
    rw [hstep, hbranch, he]

/-- C7 witness: a concrete admitted item — due 2025-11-21T00:00:00Z with
now 2025-11-20T00:00:00Z and daysAhead 14 — yields a payload whose end is
one hour past the due instant in America/New_York and whose reminders are
the two fixed popups. -/
theorem sync_payload_construction_witness :
    (buildEvent { title := some "A", type := "assignment",
                  due_at := some "2025-11-21T00:00:00Z" }
      (nameField { title := some "A", type := "assignment",
                   due_at := some "2025-11-21T00:00:00Z" })
      (convertMsToEST (msOfCivil 2025 11 21 0 0 0 0))
      (convertMsToEST (msOfCivil 2025 11 21 0 0 0 0 + 3600000))).remindersOverrides =
      [⟨"popup", 1440⟩, ⟨"popup", 60⟩] ∧
    (buildEvent { title := some "A", type := "assignment",
                  due_at := some "2025-11-21T00:00:00Z" }
      (nameField { title := some "A", type := "assignment",
                   due_at := some "2025-11-21T00:00:00Z" })
      (convertMsToEST (msOfCivil 2025 11 21 0 0 0 0))
      (convertMsToEST (msOfCivil 2025 11 21 0 0 0 0 + 3600000))).endDateTime =
      estDatetime (msOfCivil 2025 11 21 0 0 0 0 + 3600000) :=
  ⟨(sync_payload_construction 14 (msOfCivil 2025 11 20 0 0 0 0) (fun _ => .ok ())
      _ "2025-11-21T00:00:00Z" (msOfCivil 2025 11 21 0 0 0 0)
      (by decide) (by decide) (by decide) (by decide) (by decide)).2.2.2.2.2.1,
   (sync_payload_construction 14 (msOfCivil 2025 11 20 0 0 0 0) (fun _ => .ok ())
      _ "2025-11-21T00:00:00Z" (msOfCivil 2025 11 21 0 0 0 0)
      (by decide) (by decide) (by decide) (by decide) (by decide)).2.2.1⟩

end CanvasBridge
